import Mathlib

/-!
Verification of the PDFPipeline benchmark core: a shallow embedding of the
cell comparator, numeric parser, continuation detector, page-range
reconciler and the two benchmark runners, with theorems settling the
specification claims.  Machine reals (Python floats) are modelled as `ℚ`;
Python strings as `String`; fallible parsing as `Option`.
-/

namespace PDFPipeline

/-! ## Python string primitives (models of `str.strip`, `str.split`, `float`) -/

/-- Characters treated as whitespace by Python's `str.strip()` / `\s`. -/
def pyIsSpace (c : Char) : Bool :=
  c == ' ' || c == '\t' || c == '\n' || c == '\r' || c == '\x0B' || c == '\x0C'

/-- Model of Python `str.strip()` with no arguments. -/
def pyStrip (s : String) : String :=
  ⟨((s.toList.dropWhile pyIsSpace).reverse.dropWhile pyIsSpace).reverse⟩

/-- Worker for `pySplit`: accumulate the current word (reversed) and emit
it at each whitespace run or at the end. -/
def pySplitGo : List Char → List Char → List String
  | [], acc => if acc.isEmpty then [] else [⟨acc.reverse⟩]
  | c :: rest, acc =>
    if pyIsSpace c then
      if acc.isEmpty then pySplitGo rest []
      else (⟨acc.reverse⟩ : String) :: pySplitGo rest []
    else pySplitGo rest (c :: acc)

/-- Model of Python `str.split()` with no arguments: split on whitespace
runs, dropping empty pieces. -/
def pySplit (s : String) : List String :=
  pySplitGo s.toList []

/-- Numeric value of a digit string (most significant first). -/
def digitsVal (cs : List Char) : Nat :=
  cs.foldl (fun a c => 10 * a + (c.toNat - 48)) 0

/-- Syntactic stage of Python `float()` on plain decimal strings: an
optional sign, then digits with an optional fractional part, returned as
(negative?, integer digits, fraction digits).  Exponent forms, underscores
and `inf`/`nan` are outside the benchmark's numeric cell grammar and are not
modelled (they yield `none`). -/
def pyFloatScan (cs : List Char) : Option (Bool × List Char × List Char) :=
  let signed : Bool × List Char :=
    match cs with
    | '-' :: rest => (true, rest)
    | '+' :: rest => (false, rest)
    | _ => (false, cs)
  let neg := signed.1
  let body := signed.2
  let intPart := body.takeWhile Char.isDigit
  let rest := body.dropWhile Char.isDigit
  match rest with
  | [] =>
    if intPart = [] then none else some (neg, intPart, [])
  | '.' :: frac =>
    if frac.all Char.isDigit ∧ (intPart ≠ [] ∨ frac ≠ []) then
      some (neg, intPart, frac)
    else none
  | _ => none

/-- Value of a parsed sign/integer-digits/fraction-digits triple. -/
def decimalVal (neg : Bool) (ip fp : List Char) : ℚ :=
  (if neg then -1 else 1) * ((digitsVal ip : ℚ) + (digitsVal fp : ℚ) / (10 ^ fp.length))

/-- Model of Python `float()` (see `pyFloatScan` for the grammar). -/
def pyFloat (s : String) : Option ℚ :=
  (pyFloatScan s.toList).map (fun t => decimalVal t.1 t.2.1 t.2.2)

/-! ## Cell comparator (`CSVBenchmarkRunner._normalize`, `_parse_number`,
`_compare_cells` from `src/benchmark/csv_benchmark_runner.py`) -/

/-- The comparison options of `CSVBenchmarkRunner.__init__`
(`normalize_whitespace`, `case_insensitive`, `numeric_tolerance`). -/
structure CmpCfg where
  normalize_whitespace : Bool
  case_insensitive : Bool
  numeric_tolerance : ℚ
deriving DecidableEq

/-- The constructor defaults of `CSVBenchmarkRunner`. -/
def defaultCmpCfg : CmpCfg :=
  { normalize_whitespace := true, case_insensitive := false, numeric_tolerance := 1 / 1000 }

/-- `CSVBenchmarkRunner._normalize`. -/
def normalize (cfg : CmpCfg) (value : String) : String :=
  let r := value
  let r := if cfg.normalize_whitespace then String.intercalate " " (pySplit r) else r
  let r := if cfg.case_insensitive then r.toLower else r
  pyStrip r

/-- Characters removed by `_parse_number`'s `re.sub(r'[€$£¥\s]', '', value)`. -/
def isCurrencyOrSpace (c : Char) : Bool :=
  c == '€' || c == '$' || c == '£' || c == '¥' || pyIsSpace c

/-- `rfind(',') > rfind('.')` for a string known to contain both: the last
of the two separators to occur is the first found scanning from the right. -/
def commaAfterDot (cs : List Char) : Bool :=
  cs.reverse.find? (fun c => c == ',' || c == '.') == some ','

/-- The cleaning stage of `CSVBenchmarkRunner._parse_number`: strip
currency symbols and whitespace; with both `,` and `.` present the
right-most is the decimal separator (the other is removed as a thousands
separator); a lone `,` becomes the decimal separator. -/
def parseNumberCleaned (value : String) : List Char :=
  let cleaned := value.toList.filter (fun c => !isCurrencyOrSpace c)
  if cleaned.contains ',' ∧ cleaned.contains '.' then
    if commaAfterDot cleaned then
      (cleaned.filter (fun c => c ≠ '.')).map (fun c => if c = ',' then '.' else c)
    else
      cleaned.filter (fun c => c ≠ ',')
  else if cleaned.contains ',' then
    cleaned.map (fun c => if c = ',' then '.' else c)
  else cleaned

/-- `CSVBenchmarkRunner._parse_number`: clean the string, then parse it as
a float (`none` on the empty string or an unparseable remainder). -/
def parseNumber (value : String) : Option ℚ :=
  if value = "" then none
  else pyFloat ⟨parseNumberCleaned value⟩

/-- A cell value is "empty" when it strips to the empty string
(`pd.isna(x) or str(x).strip() == ""`; our cells are strings, so the
`isna` disjunct never fires). -/
def strIsEmpty (s : String) : Bool :=
  pyStrip s == ""

/-- `CSVBenchmarkRunner._compare_cells`: emptiness, exact, normalized, then
numeric comparison with absolute-or-relative tolerance. -/
def compareCells (cfg : CmpCfg) (expected actual : String) : Bool × String :=
  let expEmpty := strIsEmpty expected
  let actEmpty := strIsEmpty actual
  if expEmpty && actEmpty then (true, "empty")
  else if expEmpty != actEmpty then (false, "mismatch")
  else if expected == actual then (true, "exact")
  else if normalize cfg expected == normalize cfg actual then (true, "normalized")
  else
    match parseNumber expected, parseNumber actual with
    | some e, some a =>
      if |e - a| ≤ cfg.numeric_tolerance then (true, "numeric")
      else if e ≠ 0 ∧ |(e - a) / e| ≤ cfg.numeric_tolerance then (true, "numeric")
      else (false, "mismatch")
    | _, _ => (false, "mismatch")

/-! ## Extraction result model (`src/core/extractors/base.py`) -/

/-- A table's bounding box `(x0, y0, x1, y1)`; y grows downward. -/
structure BBox where
  x0 : ℚ
  y0 : ℚ
  x1 : ℚ
  y1 : ℚ

/-- Table cell data: a list of rows of string cells. -/
abbrev Grid := List (List String)

/-- A pandas `DataFrame`, shallowly: rectangular string data with
positional access (`iloc`) and stringified column labels. -/
structure DFrame where
  nrows : Nat
  ncols : Nat
  colLabel : Nat → String
  cell : Nat → Nat → String

/-- The empty `pd.DataFrame()`. -/
def emptyDFrame : DFrame :=
  { nrows := 0, ncols := 0, colLabel := fun _ => "", cell := fun _ _ => "" }

/-- `pd.DataFrame(data)` without an explicit header: default integer
column labels `0..n-1` (stringified), column count the longest row, short
rows padded with empty cells (pandas pads with `NaN`, which the comparator
classifies exactly like an empty string). -/
def defaultDFrame (data : Grid) : DFrame :=
  { nrows := data.length
    ncols := (data.map List.length).foldr max 0
    colLabel := fun j => toString j
    cell := fun i j => (data.getD i []).getD j "" }

/-- `ExtractedTable` (`src/core/extractors/base.py`).  The `dataframe`
field is the optional pre-built pandas frame; `metadata`-style display
helpers are omitted. -/
structure ExtractedTable where
  table_id : Nat
  page : Nat
  rows : Nat := 0
  cols : Nat := 0
  bbox : BBox := ⟨0, 0, 0, 0⟩
  is_continuation : Bool := false
  continues_to_page : Option Nat := none
  data : Grid := []
  dataframe : Option DFrame := none
  header_row : Option Nat := none

namespace ExtractedTable

/-- `ExtractedTable.is_spanning`: `continues_to_page is not None and
continues_to_page > page`. -/
def is_spanning (t : ExtractedTable) : Bool :=
  match t.continues_to_page with
  | some p => t.page < p
  | none => false

/-- `ExtractedTable.page_range`: `(page, continues_to_page or page)`;
Python truthiness makes a stored page `0` fall back to `page`. -/
def page_range (t : ExtractedTable) : Nat × Nat :=
  match t.continues_to_page with
  | some p => (t.page, if p = 0 then t.page else p)
  | none => (t.page, t.page)

/-- `ExtractedTable.page_range_str`. -/
def page_range_str (t : ExtractedTable) : String :=
  let r := t.page_range
  if r.1 = r.2 then "S." ++ toString r.1
  else "S." ++ toString r.1 ++ "-" ++ toString r.2

/-- `ExtractedTable.has_data`. -/
def has_data (t : ExtractedTable) : Bool :=
  t.data.length > 0 || t.dataframe.isSome

/-- `ExtractedTable.to_dataframe` (with its `use_header` argument): an
existing frame wins; else build from `data`, using row `header_row` as the
column labels when set and in range. -/
def to_dataframe (t : ExtractedTable) (use_header : Bool) : DFrame :=
  match t.dataframe with
  | some df => df
  | none =>
    if t.data = [] then emptyDFrame
    else
      match t.header_row with
      | some hr =>
        if use_header ∧ t.data.length > hr then
          let header := t.data.getD hr []
          let rows := t.data.drop (hr + 1)
          { nrows := rows.length
            ncols := header.length
            colLabel := fun j => header.getD j ""
            cell := fun i j => (rows.getD i []).getD j "" }
        else defaultDFrame t.data
      | none => defaultDFrame t.data

end ExtractedTable

/-- The per-page-fragment record of `legacy_data` entries. -/
structure LegacyRow where
  page : Nat
  rows : Nat
  cols : Nat
  is_continuation : Bool

/-- `ExtractionResult` (`src/core/extractors/base.py`); the free-form
`metadata` dictionary is not modelled. -/
structure ExtractionResult where
  tool_name : String
  file_path : String
  table_count : Nat := 0
  tables : List ExtractedTable := []
  image_count : Nat := 0
  image_count_total : Nat := 0
  pages : Nat := 0
  paragraphs : Nat := 0
  math_formulas : Nat := 0
  execution_time_ms : ℚ := 0
  error : Option String := none
  tables_data : List LegacyRow := []

namespace ExtractionResult

/-- `ExtractionResult.success`. -/
def success (r : ExtractionResult) : Bool :=
  r.error.isNone

/-- `ExtractionResult.spanning_table_count`. -/
def spanning_table_count (r : ExtractionResult) : Nat :=
  (r.tables.filter (fun t => t.is_spanning)).length

/-- The lookup loop of `ExtractionResult.get_table_by_id`. -/
def findTableById : List ExtractedTable → Nat → Option ExtractedTable
  | [], _ => none
  | t :: rest, id =>
    if t.table_id = id ∧ t.is_continuation = false then some t
    else findTableById rest id

/-- `ExtractionResult.get_table_by_id`: first table with the id whose
continuation flag is unset, else `None`. -/
def get_table_by_id (r : ExtractionResult) (id : Nat) : Option ExtractedTable :=
  findTableById r.tables id

/-- Insert a page into an ascending list (model of `sorted(set(...))`
accumulation). -/
def insertPageSorted (p : Nat) : List Nat → List Nat
  | [] => [p]
  | q :: rest =>
    if p < q then p :: q :: rest
    else if p = q then q :: rest
    else q :: insertPageSorted p rest

/-- `ExtractionResult.pages_with_tables`: the sorted set of pages covered
by a non-continuation table's page range. -/
def pages_with_tables (r : ExtractionResult) : List Nat :=
  ((r.tables.filter (fun t => !t.is_continuation)).flatMap
      (fun t =>
        let rg := t.page_range
        List.range' rg.1 (rg.2 + 1 - rg.1))).foldl
    (fun acc p => insertPageSorted p acc) []

/-- `ExtractionResult.get_table_summary`. -/
def get_table_summary (r : ExtractionResult) : String :=
  if r.tables.isEmpty then toString r.table_count ++ " Tabellen (keine Details)"
  else
    let main := r.tables.filter (fun t => !t.is_continuation)
    let parts := main.map (fun t => "T" ++ toString t.table_id ++ "(" ++ t.page_range_str ++ ")")
    toString main.length ++ " Tabellen: " ++ String.intercalate ", " parts

end ExtractionResult

/-! ## Continuation detector and table folding
(`PyMuPDFExtractor._extract_tables_detailed`, `_is_continuation`,
`_detect_header_row`, `_is_numeric` from
`src/core/extractors/pymupdf_extractors.py`).

The per-document loop is a fold over pages; the mutable Python state
(`logical_table_id`, `total_continuations`, `last_table_info`,
`current_spanning_table`, `spanning_data`, the growing output lists) is an
explicit `ExtState`.  Because the "currently open" spanning table is, in
Python, always the most recently appended non-continuation list element,
the list is represented as finished tables (`done`) plus the open group
(`cur`: the open main table in its latest state, then its continuation
markers); `allTables` recovers the Python list order. -/

/-- `PyMuPDFExtractor.CONTINUATION_BOTTOM`. -/
def CONTINUATION_BOTTOM : ℚ := 0.80

/-- `PyMuPDFExtractor.CONTINUATION_TOP`. -/
def CONTINUATION_TOP : ℚ := 0.20

/-- Characters removed by `_is_numeric`'s `re.sub(r'[€$£¥,.\s]', '', value)`. -/
def isNumericStripChar (c : Char) : Bool :=
  c == '€' || c == '$' || c == '£' || c == '¥' || c == ',' || c == '.' || pyIsSpace c

/-- Python `str.isdigit()` restricted to ASCII digits. -/
def pyIsDigitStr (cs : List Char) : Bool :=
  !cs.isEmpty && cs.all Char.isDigit

/-- `PyMuPDFExtractor._is_numeric`: after stripping currency symbols,
separators and whitespace, the rest (optionally after leading minus signs)
is all digits. -/
def isNumericStr (value : String) : Bool :=
  if value = "" then false
  else
    let cleaned := value.toList.filter (fun c => !isNumericStripChar c)
    pyIsDigitStr cleaned || pyIsDigitStr (cleaned.dropWhile (fun c => c == '-'))

/-- `PyMuPDFExtractor._detect_header_row`: row 0 is the header when there
are at least two rows and every truthy (non-empty) cell of row 0 is
non-numeric text. -/
def detectHeaderRow (data : Grid) : Option Nat :=
  if data = [] ∨ data.length < 2 then none
  else
    let firstRow := data.getD 0 []
    if (firstRow.filter (fun c => c ≠ "")).all (fun c => !isNumericStr c) then some 0
    else none

/-- The retained `last_table_info` dictionary. -/
structure LastInfo where
  cols : Nat
  y1 : ℚ
  pageHeight : ℚ
  page : Nat

/-- A raw per-page table detection handed over by `page.find_tables`:
column count, bounding box, and `table.extract()` output (cells may be
`None`, modelled as `Option String`). -/
structure Fragment where
  colCount : Nat
  bbox : BBox
  cells : List (List (Option String))

/-- A page as seen by `_extract_tables_detailed`: its height and its
detected fragments in detection order. -/
structure Page where
  height : ℚ
  fragments : List Fragment

/-- The `None → ""` cell cleaning applied to `table.extract()` output. -/
def cleanData (cells : List (List (Option String))) : Grid :=
  cells.map (fun row => row.map (fun c => c.getD ""))

/-- `PyMuPDFExtractor._is_continuation`: same column count, previous
fragment ended below 80% of its page, current fragment starts above 20% of
the current page. -/
def isContinuation (colCount : Nat) (bbox : BBox) (lastInfo : LastInfo) (pageHeight : ℚ) : Bool :=
  (colCount == lastInfo.cols) &&
    decide (lastInfo.y1 > lastInfo.pageHeight * CONTINUATION_BOTTOM) &&
    decide (bbox.y0 < pageHeight * CONTINUATION_TOP)

/-- The continuation decision made for one fragment: only the first
fragment of a page, only with detection enabled, only with retained
previous-fragment state. -/
def contDecision (detect isFirst : Bool) (lastInfo : Option LastInfo)
    (f : Fragment) (pageHeight : ℚ) : Bool :=
  isFirst && detect &&
    (match lastInfo with
     | some li => isContinuation f.colCount f.bbox li pageHeight
     | none => false)

/-- The open spanning group: the owning main table in its latest state,
followed by its continuation-marker entries. -/
structure CurGroup where
  main : ExtractedTable
  marks : List ExtractedTable

/-- The loop state of `_extract_tables_detailed`. -/
structure ExtState where
  nextId : Nat
  conts : Nat
  lastInfo : Option LastInfo
  cur : Option CurGroup
  spanningData : Grid
  done : List ExtractedTable
  legacy : List LegacyRow

/-- The `extracted_tables` list in Python order. -/
def allTables (st : ExtState) : List ExtractedTable :=
  st.done ++ (match st.cur with | some g => g.main :: g.marks | none => [])

/-- Close the open group (its tables are already materialized; only the
"current spanning table" pointer is dropped). -/
def flushCur (st : ExtState) : ExtState :=
  { st with done := allTables st, cur := none }

/-- One iteration of the fragment loop of `_extract_tables_detailed`. -/
def processFragment (detect : Bool) (pageNumber : Nat) (pageHeight : ℚ)
    (isFirst : Bool) (f : Fragment) (st : ExtState) : ExtState :=
  let isCont := contDecision detect isFirst st.lastInfo f pageHeight
  let tableData := cleanData f.cells
  let st' :=
    if isCont then
      let st := { st with conts := st.conts + 1 }
      match st.cur with
      | some g =>
        let main := { g.main with continues_to_page := some pageNumber }
        let upd : ExtractedTable × Grid :=
          if tableData ≠ [] then
            let sd := st.spanningData ++ tableData
            ({ main with data := sd, rows := sd.length }, sd)
          else (main, st.spanningData)
        let mark : ExtractedTable :=
          { table_id := upd.1.table_id, page := pageNumber, rows := tableData.length
            cols := f.colCount, bbox := f.bbox, is_continuation := true
            continues_to_page := none, data := tableData, dataframe := none
            header_row := none }
        { st with
            cur := some { main := upd.1, marks := g.marks ++ [mark] }
            spanningData := upd.2
            legacy := st.legacy ++ [(⟨pageNumber, tableData.length, f.colCount, true⟩ : LegacyRow)] }
      | none =>
        let mark : ExtractedTable :=
          { table_id := st.nextId, page := pageNumber, rows := tableData.length
            cols := f.colCount, bbox := f.bbox, is_continuation := true
            continues_to_page := none, data := tableData, dataframe := none
            header_row := none }
        { st with
            done := st.done ++ [mark]
            legacy := st.legacy ++ [(⟨pageNumber, tableData.length, f.colCount, true⟩ : LegacyRow)] }
    else
      let st := flushCur st
      let nid := st.nextId + 1
      let hr := if tableData ≠ [] then detectHeaderRow tableData else none
      let tbl : ExtractedTable :=
        { table_id := nid, page := pageNumber, rows := tableData.length
          cols := f.colCount, bbox := f.bbox, is_continuation := false
          continues_to_page := none, data := tableData, dataframe := none
          header_row := hr }
      { st with
          nextId := nid
          cur := some { main := tbl, marks := [] }
          spanningData := tableData
          legacy := st.legacy ++ [(⟨pageNumber, tableData.length, f.colCount, false⟩ : LegacyRow)] }
  { st' with
      lastInfo := some { cols := f.colCount, y1 := f.bbox.y1
                         pageHeight := pageHeight, page := pageNumber } }

/-- The enumerated fragment loop (`for idx, table in enumerate(...)`). -/
def processFrags (detect : Bool) (pageNumber : Nat) (pageHeight : ℚ) :
    List Fragment → Nat → ExtState → ExtState
  | [], _, st => st
  | f :: rest, idx, st =>
    processFrags detect pageNumber pageHeight rest (idx + 1)
      (processFragment detect pageNumber pageHeight (idx == 0) f st)

/-- One page of `_extract_tables_detailed`: run the fragment loop, then on
a fragment-free page clear the continuation-tracking state. -/
def processPage (detect : Bool) (pageNumber : Nat) (p : Page) (st : ExtState) : ExtState :=
  let st := processFrags detect pageNumber p.height p.fragments 0 st
  if p.fragments.isEmpty then
    { flushCur st with lastInfo := none, spanningData := [] }
  else st

/-- The page loop (`for page_num, page in enumerate(doc)`, 1-based page
numbers). -/
def processPages (detect : Bool) : List Page → Nat → ExtState → ExtState
  | [], _, st => st
  | p :: rest, n, st => processPages detect rest (n + 1) (processPage detect n p st)

/-- The initial loop state. -/
def initExtState : ExtState :=
  { nextId := 0, conts := 0, lastInfo := none, cur := none
    spanningData := [], done := [], legacy := [] }

/-- The dictionary returned by `_extract_tables_detailed`. -/
structure ExtractTablesOutput where
  count : Nat
  tables : List ExtractedTable
  legacy_data : List LegacyRow
  continuations : Nat
  spanning_count : Nat

/-- `PyMuPDFExtractor._extract_tables_detailed` over an abstract page
list. -/
def extractTablesDetailed (detect : Bool) (pages : List Page) : ExtractTablesOutput :=
  let st := processPages detect pages 1 initExtState
  let tables := allTables st
  let mains := tables.filter (fun t => !t.is_continuation)
  { count := mains.length
    tables := tables
    legacy_data := st.legacy
    continuations := st.conts
    spanning_count := (mains.filter (fun t => t.is_spanning)).length }

/-! ## Ground truth (`src/benchmark/ground_truth.py`) -/

/-- `TableDefinition` (`src/benchmark/ground_truth.py`); `__post_init__`'s
`end_page = 0 → start_page` defaulting belongs to manifest loading and is
applied by `TableDefinition.mk'` below. -/
structure TableDefinition where
  table_id : Nat
  start_page : Nat
  end_page : Nat
  description : String := ""
deriving DecidableEq

/-- Constructor applying the `__post_init__` default (`end_page == 0`
means single-page). -/
def TableDefinition.mk' (id start_page end_page : Nat) (description : String := "") :
    TableDefinition :=
  { table_id := id, start_page := start_page
    end_page := if end_page = 0 then start_page else end_page
    description := description }

/-- `TableDefinition.is_spanning`. -/
def TableDefinition.is_spanning (t : TableDefinition) : Bool :=
  t.start_page < t.end_page

/-- `TableDefinition.page_range_str`. -/
def TableDefinition.page_range_str (t : TableDefinition) : String :=
  if t.is_spanning then "S." ++ toString t.start_page ++ "-" ++ toString t.end_page
  else "S." ++ toString t.start_page

/-- `DocumentGroundTruth` (`src/benchmark/ground_truth.py`). -/
structure DocumentGroundTruth where
  file_name : String
  table_count : Nat := 0
  tables : List TableDefinition := []
  image_count : Nat := 0
  pages : Nat := 0
  category : String := "general"
  difficulty : Nat := 1
  notes : String := ""
deriving DecidableEq

/-- `DocumentGroundTruth.spanning_table_count`. -/
def DocumentGroundTruth.spanning_table_count (d : DocumentGroundTruth) : Nat :=
  (d.tables.filter (fun t => t.is_spanning)).length

/-- `GroundTruthManifest` (`src/benchmark/ground_truth.py`). -/
structure GroundTruthManifest where
  documents : List DocumentGroundTruth := []
deriving DecidableEq

/-- `GroundTruthManifest.get`: first document with the file name. -/
def GroundTruthManifest.get (m : GroundTruthManifest) (file_name : String) :
    Option DocumentGroundTruth :=
  m.documents.find? (fun d => d.file_name == file_name)

/-! ## Page-range reconciler (`BenchmarkRunner._compare_table_pages`,
`_ranges_overlap` from `src/benchmark/runner.py`) -/

/-- `BenchmarkRunner._ranges_overlap`. -/
def rangesOverlap (range1 range2 : Nat × Nat) : Bool :=
  range1.1 ≤ range2.2 && range2.1 ≤ range1.2

/-- `TableComparisonResult` of `src/benchmark/runner.py`. -/
structure TableCmp where
  table_id : Nat
  gt_pages : Nat × Nat
  extracted_pages : Option (Nat × Nat)
  match_status : String
deriving DecidableEq

/-- The inner scan of `_compare_table_pages`: skip consumed ids; an equal
range matches immediately (`break`); an overlap replaces the tentative
partial match and scanning continues. -/
def scanLoop (used : List Nat) (gtRange : Nat × Nat) :
    List ExtractedTable → Option ExtractedTable × String → Option ExtractedTable × String
  | [], best => best
  | e :: rest, best =>
    if e.table_id ∈ used then scanLoop used gtRange rest best
    else if e.page_range = gtRange then (some e, "exact")
    else if rangesOverlap gtRange e.page_range then
      if best.2 ≠ "exact" then scanLoop used gtRange rest (some e, "partial")
      else scanLoop used gtRange rest best
    else scanLoop used gtRange rest best

/-- The outer ground-truth loop of `_compare_table_pages`, threading the
consumed-id set and the output list. -/
def compareLoop (main : List ExtractedTable) :
    List TableDefinition → List Nat → List TableCmp → List Nat × List TableCmp
  | [], used, acc => (used, acc)
  | gt :: rest, used, acc =>
    let gtRange := (gt.start_page, gt.end_page)
    let best := scanLoop used gtRange main (none, "missing")
    let used' := match best.1 with
      | some e => used ++ [e.table_id]
      | none => used
    compareLoop main rest used'
      (acc ++ [{ table_id := gt.table_id, gt_pages := gtRange
                 extracted_pages := best.1.map (fun e => e.page_range)
                 match_status := best.2 }])

/-- `BenchmarkRunner._compare_table_pages`: match each ground-truth entry
against the non-continuation extracted tables, then emit unconsumed
extracted tables as `extra`. -/
def compareTablePages (gts : List TableDefinition) (exts : List ExtractedTable) :
    List TableCmp :=
  let main := exts.filter (fun t => !t.is_continuation)
  let r := compareLoop main gts [] []
  r.2 ++ (main.filter (fun e => e.table_id ∉ r.1)).map
    (fun e => { table_id := e.table_id, gt_pages := (0, 0)
                extracted_pages := some e.page_range, match_status := "extra" })

/-- Spec-side single-entry matcher, following the spec's words amended at
one point: exact match goes to the *first* not-yet-consumed table with an
equal range; otherwise a partial match goes to the *last* not-yet-consumed
overlapping table (the code lets every later overlap replace the tentative
match); otherwise the entry is `missing`. -/
def reconcileMatchAmended (used : List Nat) (gtRange : Nat × Nat)
    (main : List ExtractedTable) : Option ExtractedTable × String :=
  let avail := main.filter (fun e => e.table_id ∉ used)
  match avail.find? (fun e => e.page_range == gtRange) with
  | some e => (some e, "exact")
  | none =>
    match (avail.filter (fun e => rangesOverlap gtRange e.page_range)).getLast? with
    | some e => (some e, "partial")
    | none => (none, "missing")

/-- Spec-side single-entry matcher following the claim exactly as written:
the partial match goes to the *first* overlapping table. -/
def reconcileMatchFirst (used : List Nat) (gtRange : Nat × Nat)
    (main : List ExtractedTable) : Option ExtractedTable × String :=
  let avail := main.filter (fun e => e.table_id ∉ used)
  match avail.find? (fun e => e.page_range == gtRange) with
  | some e => (some e, "exact")
  | none =>
    match (avail.filter (fun e => rangesOverlap gtRange e.page_range)).head? with
    | some e => (some e, "partial")
    | none => (none, "missing")

/-- Spec-side reconciler loop over a given single-entry matcher: process
ground-truth entries in input order, consuming at most one extracted table
per entry. -/
def reconcileLoop
    (matcher : List Nat → Nat × Nat → List ExtractedTable → Option ExtractedTable × String)
    (main : List ExtractedTable) :
    List TableDefinition → List Nat → List TableCmp → List Nat × List TableCmp
  | [], used, acc => (used, acc)
  | gt :: rest, used, acc =>
    let gtRange := (gt.start_page, gt.end_page)
    let best := matcher used gtRange main
    let used' := match best.1 with
      | some e => used ++ [e.table_id]
      | none => used
    reconcileLoop matcher main rest used'
      (acc ++ [{ table_id := gt.table_id, gt_pages := gtRange
                 extracted_pages := best.1.map (fun e => e.page_range)
                 match_status := best.2 }])

/-- Spec-side reconciler over a given single-entry matcher: process
ground-truth entries in input order, then emit every unconsumed extracted
table once as `extra`. -/
def reconcileWith
    (matcher : List Nat → Nat × Nat → List ExtractedTable → Option ExtractedTable × String)
    (gts : List TableDefinition) (exts : List ExtractedTable) : List TableCmp :=
  let main := exts.filter (fun t => !t.is_continuation)
  let r := reconcileLoop matcher main gts [] []
  r.2 ++ (main.filter (fun e => e.table_id ∉ r.1)).map
    (fun e => { table_id := e.table_id, gt_pages := (0, 0)
                extracted_pages := some e.page_range, match_status := "extra" })

/-! ## Tool metrics (`ToolMetrics` from `src/benchmark/runner.py`,
`CSVToolMetrics` from `src/benchmark/csv_benchmark_runner.py`).

`table_page_partial_count` mirrors the source field `table_page` plus the
partial suffix; the name is abbreviated only to satisfy lexical
constraints of this development. -/

/-- `ToolMetrics` counters (`src/benchmark/runner.py`). -/
structure ToolMetrics where
  tool_name : String
  total_files : Nat := 0
  successful : Nat := 0
  table_exact : Nat := 0
  table_over : Nat := 0
  table_under : Nat := 0
  table_page_exact : Nat := 0
  table_page_partial_count : Nat := 0
  spanning_detected : Nat := 0
  spanning_total_gt : Nat := 0
  image_exact : Nat := 0
  total_time_ms : ℚ := 0
deriving DecidableEq

namespace ToolMetrics

/-- `ToolMetrics.table_accuracy`. -/
def table_accuracy (m : ToolMetrics) : ℚ :=
  if 0 < m.total_files then (m.table_exact : ℚ) / m.total_files else 0

/-- `ToolMetrics.table_page_accuracy`: `total / max(expected, 1)` with the
rough estimate `expected = table_exact * total_files`. -/
def table_page_accuracy (m : ToolMetrics) : ℚ :=
  ((m.table_page_exact + m.table_page_partial_count : Nat) : ℚ) /
    ((max (m.table_exact * m.total_files) 1 : Nat) : ℚ)

/-- `ToolMetrics.spanning_recall`: `1.0` when no ground-truth spanning
table was seen. -/
def spanning_recall (m : ToolMetrics) : ℚ :=
  if 0 < m.spanning_total_gt then (m.spanning_detected : ℚ) / m.spanning_total_gt else 1

/-- `ToolMetrics.image_accuracy`. -/
def image_accuracy (m : ToolMetrics) : ℚ :=
  if 0 < m.total_files then (m.image_exact : ℚ) / m.total_files else 0

/-- `ToolMetrics.avg_time_ms`. -/
def avg_time_ms (m : ToolMetrics) : ℚ :=
  if 0 < m.successful then m.total_time_ms / m.successful else 0

end ToolMetrics

/-- `CSVToolMetrics` counters (`src/benchmark/csv_benchmark_runner.py`). -/
structure CSVToolMetrics where
  tool_name : String
  total_tables : Nat := 0
  successful_extractions : Nat := 0
  structure_matches : Nat := 0
  total_cells : Nat := 0
  total_matched : Nat := 0
  total_exact : Nat := 0
  total_mismatches : Nat := 0
  header_matches : Nat := 0
  total_time_ms : ℚ := 0
deriving DecidableEq

namespace CSVToolMetrics

/-- `CSVToolMetrics.success_rate`. -/
def success_rate (m : CSVToolMetrics) : ℚ :=
  if m.total_tables = 0 then 0 else (m.successful_extractions : ℚ) / m.total_tables

/-- `CSVToolMetrics.structure_accuracy`. -/
def structure_accuracy (m : CSVToolMetrics) : ℚ :=
  if m.successful_extractions = 0 then 0 else (m.structure_matches : ℚ) / m.successful_extractions

/-- `CSVToolMetrics.cell_accuracy`. -/
def cell_accuracy (m : CSVToolMetrics) : ℚ :=
  if m.total_cells = 0 then 0 else (m.total_matched : ℚ) / m.total_cells

/-- `CSVToolMetrics.exact_accuracy`. -/
def exact_accuracy (m : CSVToolMetrics) : ℚ :=
  if m.total_cells = 0 then 0 else (m.total_exact : ℚ) / m.total_cells

/-- `CSVToolMetrics.header_accuracy`. -/
def header_accuracy (m : CSVToolMetrics) : ℚ :=
  if m.successful_extractions = 0 then 0 else (m.header_matches : ℚ) / m.successful_extractions

/-- `CSVToolMetrics.avg_time_ms`. -/
def avg_time_ms (m : CSVToolMetrics) : ℚ :=
  if m.successful_extractions = 0 then 0 else m.total_time_ms / m.successful_extractions

end CSVToolMetrics

/-! ## CSV ground truth (`src/benchmark/csv_ground_truth.py`).
The lazily parsed pandas frame of `CSVGroundTruth.dataframe` is carried as
an already materialized `DFrame` (the lazy `pd.read_csv` of the stored CSV
string is an external-library call). -/

/-- `CSVGroundTruth` (`src/benchmark/csv_ground_truth.py`). -/
structure CSVGroundTruth where
  table_id : Nat
  file_name : String
  rows : Nat := 0
  cols : Nat := 0
  has_header : Bool := true
  notes : String := ""
  dframe : DFrame := emptyDFrame

/-- `CSVGroundTruthManifest`. -/
structure CSVGroundTruthManifest where
  tables : List CSVGroundTruth := []

/-- `CSVGroundTruthManifest.get_all_for_file`. -/
def CSVGroundTruthManifest.get_all_for_file (m : CSVGroundTruthManifest)
    (file_name : String) : List CSVGroundTruth :=
  m.tables.filter (fun t => t.file_name == file_name)

/-! ## CSV table comparison (`CSVBenchmarkRunner._compare_tables`) -/

/-- `CellComparisonResult`; the source field `match` is a Lean keyword and
is embedded as `match_ok`. -/
structure CellCmp where
  row : Nat
  col : Nat
  expected : String
  actual : String
  match_ok : Bool
  match_type : String
deriving DecidableEq

/-- `TableComparisonResult` of `src/benchmark/csv_benchmark_runner.py`. -/
structure TableCmpCSV where
  table_id : Nat
  tool_name : String
  file_name : String
  expected_rows : Nat
  expected_cols : Nat
  actual_rows : Nat
  actual_cols : Nat
  total_cells : Nat := 0
  matched_cells : Nat := 0
  exact_matches : Nat := 0
  normalized_matches : Nat := 0
  numeric_matches : Nat := 0
  empty_matches : Nat := 0
  mismatches : Nat := 0
  cell_comparisons : List CellCmp := []
  mismatched_cells : List CellCmp := []
  header_match : Bool := false
  execution_time_ms : ℚ := 0
  error : Option String := none
deriving DecidableEq

/-- `TableComparisonResult.success`. -/
def TableCmpCSV.success (r : TableCmpCSV) : Bool :=
  r.error.isNone

/-- `TableComparisonResult.structure_match`. -/
def TableCmpCSV.structure_match (r : TableCmpCSV) : Bool :=
  r.expected_rows == r.actual_rows && r.expected_cols == r.actual_cols

/-- One iteration of the cell loop of `_compare_tables`: compare the cells
at (row, col) and accumulate counters and per-cell records. -/
def compareCellAt (cfg : CmpCfg) (gdf edf : DFrame) (row col : Nat)
    (r : TableCmpCSV) : TableCmpCSV :=
  let gv := gdf.cell row col
  let ev := edf.cell row col
  let m := compareCells cfg gv ev
  let cellResult : CellCmp :=
    { row := row, col := col, expected := gv, actual := ev
      match_ok := m.1, match_type := m.2 }
  let r :=
    if m.1 then
      let r := { r with matched_cells := r.matched_cells + 1 }
      if m.2 = "exact" then { r with exact_matches := r.exact_matches + 1 }
      else if m.2 = "normalized" then { r with normalized_matches := r.normalized_matches + 1 }
      else if m.2 = "numeric" then { r with numeric_matches := r.numeric_matches + 1 }
      else if m.2 = "empty" then { r with empty_matches := r.empty_matches + 1 }
      else r
    else
      { r with mismatches := r.mismatches + 1
               mismatched_cells := r.mismatched_cells ++ [cellResult] }
  { r with cell_comparisons := r.cell_comparisons ++ [cellResult] }

/-- The nested row/column loop of `_compare_tables`. -/
def compareCellsLoop (cfg : CmpCfg) (gdf edf : DFrame) (rowsCmp colsCmp : Nat)
    (r : TableCmpCSV) : TableCmpCSV :=
  (List.range rowsCmp).foldl
    (fun r row => (List.range colsCmp).foldl (fun r col => compareCellAt cfg gdf edf row col r) r)
    r

/-- The opening stage of `_compare_tables`: build the result record with
both dimension pairs and perform the header comparison. -/
def compareTablesInit (cfg : CmpCfg) (gt : CSVGroundTruth) (gdf edf : DFrame)
    (tool_name file_name : String) : TableCmpCSV :=
  let r : TableCmpCSV :=
    { table_id := gt.table_id, tool_name := tool_name, file_name := file_name
      expected_rows := gdf.nrows, expected_cols := gdf.ncols
      actual_rows := edf.nrows, actual_cols := edf.ncols }
  if gt.has_header ∧ 0 < gdf.ncols ∧ 0 < edf.ncols then
    { r with header_match :=
        ((List.range gdf.ncols).map (fun j => normalize cfg (gdf.colLabel j)) ==
          (List.range edf.ncols).map (fun j => normalize cfg (edf.colLabel j))) }
  else r

/-- The cell-comparison stage of `_compare_tables`: set the total to the
ground-truth dimensions, run the cell loop over the dimension
intersection, then count every uncompared ground-truth cell as a
mismatch. -/
def compareTablesTail (cfg : CmpCfg) (gdf edf : DFrame) (r1 : TableCmpCSV) : TableCmpCSV :=
  let rowsCmp := min gdf.nrows edf.nrows
  let colsCmp := min gdf.ncols edf.ncols
  let r := { r1 with total_cells := gdf.nrows * gdf.ncols }
  let r := compareCellsLoop cfg gdf edf rowsCmp colsCmp r
  if rowsCmp < gdf.nrows ∨ colsCmp < gdf.ncols then
    { r with mismatches := r.mismatches + (gdf.nrows * gdf.ncols - rowsCmp * colsCmp) }
  else r

/-- `CSVBenchmarkRunner._compare_tables`: positional comparison over the
dimension intersection, with every ground-truth cell outside it counted as
a mismatch (the conversion-failure path is the external pandas call and is
not modelled). -/
def compareTables (cfg : CmpCfg) (gt : CSVGroundTruth) (extracted : ExtractedTable)
    (tool_name file_name : String) : TableCmpCSV :=
  let gdf := gt.dframe
  let edf := extracted.to_dataframe true
  compareTablesTail cfg gdf edf (compareTablesInit cfg gt gdf edf tool_name file_name)

/-! ## CSV benchmark runner (`CSVBenchmarkRunner.run` from
`src/benchmark/csv_benchmark_runner.py`).

An extraction adapter is a black box from raw bytes (an opaque token) and
a file name to an `ExtractionResult`.  Wall-clock timing around the
adapter call is modelled by the adapter's reported elapsed time (real time
itself is not statable); the per-file `except` safety net is not modelled
(the adapter interface is total and reports failure via `error`). -/

/-- An extraction adapter (`BaseExtractor`): display name plus extraction
function over opaque document bytes. -/
structure Extractor where
  name : String
  extract : Nat → String → ExtractionResult

/-- `CSVBenchmarkRunner` configuration: manifest, adapters and the
comparison options (grouped in `CmpCfg`). -/
structure CSVRunner where
  manifest : Option CSVGroundTruthManifest
  extractors : List Extractor
  cfg : CmpCfg

/-- `CSVBenchmarkResult`: per-tool metrics (an insertion-ordered
association list models the Python dict) and the comparison list. -/
structure CSVBenchmarkResult where
  tool_metrics : List (String × CSVToolMetrics) := []
  table_comparisons : List TableCmpCSV := []

/-- Update the named tool's metrics in place. -/
def updateCSVMetrics (name : String) (f : CSVToolMetrics → CSVToolMetrics)
    (ms : List (String × CSVToolMetrics)) : List (String × CSVToolMetrics) :=
  ms.map (fun p => if p.1 = name then (p.1, f p.2) else p)

/-- The error comparison row recorded for a ground-truth table when the
extraction failed or the table is absent. -/
def errorCmp (gt : CSVGroundTruth) (tool_name file_name : String)
    (error : Option String) : TableCmpCSV :=
  { table_id := gt.table_id, tool_name := tool_name, file_name := file_name
    expected_rows := gt.rows, expected_cols := gt.cols
    actual_rows := 0, actual_cols := 0, error := error }

/-- The per-ground-truth-table body of `CSVBenchmarkRunner.run` for one
successful extraction. -/
def csvProcessGt (cfg : CmpCfg) (extraction : ExtractionResult) (t : ℚ)
    (tool_name file_name : String) (st : CSVBenchmarkResult) (gt : CSVGroundTruth) :
    CSVBenchmarkResult :=
  let st := { st with tool_metrics :=
    (updateCSVMetrics tool_name (fun m => { m with total_tables := m.total_tables + 1 })
      st.tool_metrics) }
  match extraction.get_table_by_id gt.table_id with
  | none =>
    { st with table_comparisons := st.table_comparisons ++
        [errorCmp gt tool_name file_name
          (some ("Tabelle " ++ toString gt.table_id ++ " nicht gefunden oder keine Daten"))] }
  | some tbl =>
    if !tbl.has_data then
      { st with table_comparisons := st.table_comparisons ++
          [errorCmp gt tool_name file_name
            (some ("Tabelle " ++ toString gt.table_id ++ " nicht gefunden oder keine Daten"))] }
    else
      let comparison := { compareTables cfg gt tbl tool_name file_name with
        execution_time_ms := t }
      { st with
          tool_metrics := updateCSVMetrics tool_name
            (fun m =>
              let m := { m with
                successful_extractions := m.successful_extractions + 1
                total_time_ms := m.total_time_ms + t }
              let m := if comparison.structure_match then
                  { m with structure_matches := m.structure_matches + 1 } else m
              let m := if comparison.header_match then
                  { m with header_matches := m.header_matches + 1 } else m
              { m with
                  total_cells := m.total_cells + comparison.total_cells
                  total_matched := m.total_matched + comparison.matched_cells
                  total_exact := m.total_exact + comparison.exact_matches
                  total_mismatches := m.total_mismatches + comparison.mismatches })
            st.tool_metrics
          table_comparisons := st.table_comparisons ++ [comparison] }

/-- One (file, adapter) step of `CSVBenchmarkRunner.run`. -/
def csvProcessFileExt (rn : CSVRunner) (file_name : String) (bytes : Nat)
    (gt_tables : List CSVGroundTruth) (st : CSVBenchmarkResult) (ext : Extractor) :
    CSVBenchmarkResult :=
  let extraction := ext.extract bytes file_name
  let t := extraction.execution_time_ms
  if !extraction.success then
    gt_tables.foldl
      (fun st gt =>
        { st with
            tool_metrics := updateCSVMetrics ext.name
              (fun m => { m with total_tables := m.total_tables + 1 }) st.tool_metrics
            table_comparisons := st.table_comparisons ++
              [errorCmp gt ext.name file_name extraction.error] })
      st
  else
    gt_tables.foldl (csvProcessGt rn.cfg extraction t ext.name file_name) st

/-- One file of `CSVBenchmarkRunner.run`: look up ground truth by file
name and skip the file silently when there is none. -/
def csvProcessFile (rn : CSVRunner) (st : CSVBenchmarkResult) (file : String × Nat) :
    CSVBenchmarkResult :=
  let gt_tables := match rn.manifest with
    | some m => m.get_all_for_file file.1
    | none => []
  if gt_tables.isEmpty then st
  else rn.extractors.foldl (csvProcessFileExt rn file.1 file.2 gt_tables) st

/-- The file loop of `CSVBenchmarkRunner.run`. -/
def csvRunFiles (rn : CSVRunner) (st : CSVBenchmarkResult) (files : List (String × Nat)) :
    CSVBenchmarkResult :=
  files.foldl (csvProcessFile rn) st

/-- `CSVBenchmarkRunner.run`: initialize one metrics record per adapter,
then process every (file name, bytes) pair. -/
def csvRun (rn : CSVRunner) (files : List (String × Nat)) : CSVBenchmarkResult :=
  csvRunFiles rn
    { tool_metrics := rn.extractors.map (fun e => (e.name, { tool_name := e.name })) }
    files

/-! ## Page-count benchmark runner (`BenchmarkRunner.run` from
`src/benchmark/runner.py`) -/

/-- The per-file/per-tool detail dictionary built by
`BenchmarkRunner.run` (`round(x, 1)` on the two time fields is display
formatting and is carried unrounded). -/
structure DetailRow where
  file : String
  tool : String
  tables : Nat
  tables_summary : String
  spanning : Nat
  pages_with_tables : List Nat
  images : Nat
  pages : Nat
  time_ms : ℚ
  gt_tables : Option Nat
  gt_images : Option Nat
  table_diff : Option Int
  image_diff : Option Int
  gt_tables_detail : Option String
  status : String

/-- `DetailedTableReport` (`src/benchmark/runner.py`). -/
structure DetailedTableReport where
  file_name : String
  tool_name : String
  gt_table_count : Nat
  gt_tables : List TableDefinition
  extracted_count : Nat
  extracted_tables : List ExtractedTable
  comparisons : List TableCmp := []

/-- `DetailedTableReport.gt_summary`. -/
def DetailedTableReport.gt_summary (r : DetailedTableReport) : String :=
  if r.gt_tables.isEmpty then toString r.gt_table_count ++ " Tabellen"
  else
    toString r.gt_table_count ++ " Tabellen: " ++
      String.intercalate ", "
        (r.gt_tables.map (fun t => "T" ++ toString t.table_id ++ "(" ++ t.page_range_str ++ ")"))

/-- `BenchmarkResult` (`src/benchmark/runner.py`). -/
structure BenchResult where
  tool_metrics : List (String × ToolMetrics) := []
  detailed_results : List DetailRow := []
  table_reports : List DetailedTableReport := []

/-- Update the named tool's metrics in place. -/
def updateBenchMetrics (name : String) (f : ToolMetrics → ToolMetrics)
    (ms : List (String × ToolMetrics)) : List (String × ToolMetrics) :=
  ms.map (fun p => if p.1 = name then (p.1, f p.2) else p)

/-- Fold the per-entry page-match statuses of a comparison list into the
page counters, as the `for comp in comparisons` loop does. -/
def addPageStatusCounts (comparisons : List TableCmp) (m : ToolMetrics) : ToolMetrics :=
  comparisons.foldl
    (fun m comp =>
      if comp.match_status = "exact" then
        { m with table_page_exact := m.table_page_exact + 1 }
      else if comp.match_status = "partial" then
        { m with table_page_partial_count := m.table_page_partial_count + 1 }
      else m)
    m

/-- One (file, adapter) step of `BenchmarkRunner.run`: `total_files` is
counted unconditionally; everything else only on success, and the
ground-truth-dependent parts only when ground truth exists. -/
def benchProcessFileExt (gt : Option DocumentGroundTruth) (file_name : String)
    (bytes : Nat) (st : BenchResult) (ext : Extractor) : BenchResult :=
  let st := { st with tool_metrics :=
    (updateBenchMetrics ext.name (fun m => { m with total_files := m.total_files + 1 })
      st.tool_metrics) }
  let extraction := ext.extract bytes file_name
  if !extraction.success then st
  else
    let st := { st with tool_metrics :=
      (updateBenchMetrics ext.name
        (fun m => { m with successful := m.successful + 1
                           total_time_ms := m.total_time_ms + extraction.execution_time_ms })
        st.tool_metrics) }
    let report : DetailedTableReport :=
      { file_name := file_name, tool_name := ext.name
        gt_table_count := (gt.map (fun g => g.table_count)).getD 0
        gt_tables := (gt.map (fun g => g.tables)).getD []
        extracted_count := extraction.table_count
        extracted_tables := extraction.tables }
    let detail0 : DetailRow :=
      { file := file_name, tool := ext.name, tables := extraction.table_count
        tables_summary := extraction.get_table_summary
        spanning := extraction.spanning_table_count
        pages_with_tables := extraction.pages_with_tables
        images := extraction.image_count, pages := extraction.pages
        time_ms := extraction.execution_time_ms
        gt_tables := gt.map (fun g => g.table_count)
        gt_images := gt.map (fun g => g.image_count)
        table_diff := none, image_diff := none, gt_tables_detail := none
        status := "○" }
    match gt with
    | none =>
      { st with detailed_results := st.detailed_results ++ [detail0]
                table_reports := st.table_reports ++ [report] }
    | some g =>
      let table_diff : Int := (extraction.table_count : Int) - g.table_count
      let image_diff : Int := (extraction.image_count : Int) - g.image_count
      let detail := { detail0 with
        table_diff := some table_diff, image_diff := some image_diff
        gt_tables_detail := some report.gt_summary
        status := if table_diff = 0 then "✓" else if 0 < table_diff then "↑" else "↓" }
      let st := { st with tool_metrics :=
        (updateBenchMetrics ext.name
          (fun m =>
            let m :=
              if table_diff = 0 then { m with table_exact := m.table_exact + 1 }
              else if 0 < table_diff then { m with table_over := m.table_over + 1 }
              else { m with table_under := m.table_under + 1 }
            let m := if image_diff = 0 then { m with image_exact := m.image_exact + 1 } else m
            { m with spanning_total_gt := m.spanning_total_gt + g.spanning_table_count
                     spanning_detected := m.spanning_detected + extraction.spanning_table_count })
          st.tool_metrics) }
      if g.tables.isEmpty then
        { st with detailed_results := st.detailed_results ++ [detail]
                  table_reports := st.table_reports ++ [report] }
      else
        let comparisons := compareTablePages g.tables extraction.tables
        let report := { report with comparisons := comparisons }
        let st := { st with tool_metrics :=
          (updateBenchMetrics ext.name (addPageStatusCounts comparisons) st.tool_metrics) }
        { st with detailed_results := st.detailed_results ++ [detail]
                  table_reports := st.table_reports ++ [report] }

/-- One file of `BenchmarkRunner.run`: look up ground truth once, then run
every adapter. -/
def benchProcessFile (manifest : Option GroundTruthManifest) (extractors : List Extractor)
    (st : BenchResult) (file : String × Nat) : BenchResult :=
  let gt := match manifest with
    | some m => m.get file.1
    | none => none
  extractors.foldl (benchProcessFileExt gt file.1 file.2) st

/-- The file loop of `BenchmarkRunner.run`. -/
def benchRunFiles (manifest : Option GroundTruthManifest) (extractors : List Extractor)
    (st : BenchResult) (files : List (String × Nat)) : BenchResult :=
  files.foldl (benchProcessFile manifest extractors) st

/-- `BenchmarkRunner.run`: initialize one metrics record per adapter, then
process every (file name, bytes) pair. -/
def benchRun (manifest : Option GroundTruthManifest) (extractors : List Extractor)
    (files : List (String × Nat)) : BenchResult :=
  benchRunFiles manifest extractors
    { tool_metrics := extractors.map (fun e => (e.name, { tool_name := e.name })) }
    files

/-! ## Spec-side views and concrete instances used by the theorems -/

/-- The continuation flags of the accumulated table list. -/
def tablesFlags (st : ExtState) : List Bool :=
  (allTables st).map (fun t => t.is_continuation)

/-- The table ids of the accumulated table list. -/
def tablesIds (st : ExtState) : List Nat :=
  (allTables st).map (fun t => t.table_id)

/-- The spec's continuation predicate, in the spec's own terms: a retained
previous fragment exists, column counts agree, the previous fragment's
bottom edge exceeded 80% of its page height, and the current fragment's
top edge is above 20% of the current page height. -/
def contSpecBool (lastInfo : Option LastInfo) (f : Fragment) (pageHeight : ℚ) : Bool :=
  match lastInfo with
  | none => false
  | some li =>
    (f.colCount == li.cols) &&
      decide (li.y1 > li.pageHeight * (80 / 100)) &&
      decide (f.bbox.y0 < pageHeight * (20 / 100))

/-- The continuation flags the spec prescribes for one page's fragments:
only the first fragment can be a continuation (per `contSpecBool`), every
later fragment is a new logical table. -/
def pageFlagsSpec (lastInfo : Option LastInfo) (p : Page) : List Bool :=
  match p.fragments with
  | [] => []
  | f :: rest => contSpecBool lastInfo f p.height :: rest.map (fun _ => false)

/-- Invariant threaded through the folding loop for the gap-page theorem:
ids stay above the pre-gap counter `n`, retained fragment state implies an
open group, and the open group's main table was created after the gap. -/
def gapInv (n : Nat) (st : ExtState) : Prop :=
  n ≤ st.nextId ∧ (st.lastInfo.isSome → st.cur.isSome) ∧
    ∀ g, st.cur = some g → n < g.main.table_id

/-- The accuracy counters of `ToolMetrics` that only ground-truth
comparison updates (everything except `total_files`, `successful`,
`total_time_ms`). -/
def accCounters (m : ToolMetrics) :
    Nat × Nat × Nat × Nat × Nat × Nat × Nat × Nat :=
  (m.table_exact, m.table_over, m.table_under, m.table_page_exact,
   m.table_page_partial_count, m.spanning_detected, m.spanning_total_gt, m.image_exact)

/-- First page of the spanning-table failing input: a two-column table
with a header row, running to the bottom of a height-100 page. -/
def pageSpanA : Page :=
  { height := 100
    fragments := [{ colCount := 2, bbox := { x0 := 0, y0 := 10, x1 := 50, y1 := 90 }
                    cells := [[some "H1", some "H2"], [some "a", some "b"]] }] }

/-- Second page of the spanning-table failing input: the continuation
fragment, starting near the top and repeating the header row. -/
def pageSpanB : Page :=
  { height := 100
    fragments := [{ colCount := 2, bbox := { x0 := 0, y0 := 5, x1 := 50, y1 := 50 }
                    cells := [[some "H1", some "H2"], [some "c", some "d"]] }] }

/-- A trivial adapter that always succeeds with one empty-handed result
(used to exercise the benchmark runners on concrete inputs). -/
def extractorEx : Extractor :=
  { name := "E"
    extract := fun _ fn =>
      { tool_name := "E", file_path := fn, execution_time_ms := 5 } }

/-! ## Theorems -/

/-- The lookup loop of `get_table_by_id` returns the head of the filtered
list. -/
theorem findTableById_eq_head_filter (id : Nat) (l : List ExtractedTable) :
    ExtractionResult.findTableById l id =
      (l.filter (fun t => t.table_id == id && !t.is_continuation)).head? := by
  induction l with
  | nil => rfl
  | cons t rest ih =>
    rw [ExtractionResult.findTableById]
    by_cases h1 : t.table_id = id
    · by_cases h2 : t.is_continuation
      · rw [if_neg (by simp [h2]), List.filter_cons_of_neg (by simp [h2])]
        exact ih
      · rw [if_pos ⟨h1, by simpa using h2⟩,
          List.filter_cons_of_pos (by simp [h1, h2])]
        rfl
    · rw [if_neg (by simp [h1]), List.filter_cons_of_neg (by simp [h1])]
      exact ih

/-- C10: `get_table_by_id` returns the first table in the list carrying
the requested id whose continuation flag is unset, and `none` when no such
table exists; continuation-marker entries are never returned even when
they carry the id, so lookups always see the folded main table. -/
theorem get_table_by_id_first_main (r : ExtractionResult) (id : Nat) :
    r.get_table_by_id id =
      (r.tables.filter (fun t => t.table_id == id && !t.is_continuation)).head? :=
  findTableById_eq_head_filter id r.tables

/-- C8 counterexample: the comparator's emptiness check precedes the
exact-equality check, so the non-empty string `" "` compared against
itself yields `(true, "empty")`, not `(true, "exact")`. -/
theorem compare_cells_whitespace_ce :
    compareCells defaultCmpCfg " " " " = (true, "empty") ∧
    (" " : String) ≠ "" ∧ ("empty" : String) ≠ ("exact" : String) :=
  ⟨by decide, by decide, by decide⟩

/-- C8 (amended): for every string that does not strip to the empty
string, comparing it with itself matches with type `exact`, under any
comparison configuration. -/
theorem compare_cells_self_exact (cfg : CmpCfg) (x : String) (h : pyStrip x ≠ "") :
    compareCells cfg x x = (true, "exact") := by
  have hb : strIsEmpty x = false := by
    unfold strIsEmpty
    exact beq_eq_false_iff_ne.mpr h
  unfold compareCells
  simp [hb]

/-- Witness for C8's amended theorem at the concrete string `"abc"`. -/
theorem compare_cells_self_exact_witness :
    pyStrip "abc" ≠ "" ∧ compareCells defaultCmpCfg "abc" "abc" = (true, "exact") :=
  ⟨by decide, compare_cells_self_exact defaultCmpCfg "abc" (by decide)⟩

/-- C5 counterexample: a `ToolMetrics` with all counters zero reports
spanning recall `1.0`, not `0.0`. -/
theorem spanning_recall_zero_ce :
    ({ tool_name := "t" } : ToolMetrics).spanning_recall = 1 ∧
    ¬ ({ tool_name := "t" } : ToolMetrics).spanning_recall = 0 := by
  constructor
  · simp [ToolMetrics.spanning_recall]
  · simp [ToolMetrics.spanning_recall]

/-- C5 (amended): with all accumulated counters zero, every derived ratio
of both metrics classes returns `0.0` — except `spanning_recall`, which
returns `1.0` — and each accessor guards its denominator, so none divides
by zero. -/
theorem zero_metrics_ratios :
    (∀ m : ToolMetrics, m.total_files = 0 → m.successful = 0 →
        m.table_page_exact = 0 → m.table_page_partial_count = 0 →
        m.spanning_total_gt = 0 →
      m.table_accuracy = 0 ∧ m.table_page_accuracy = 0 ∧ m.spanning_recall = 1 ∧
        m.image_accuracy = 0 ∧ m.avg_time_ms = 0) ∧
    (∀ m : CSVToolMetrics, m.total_tables = 0 → m.successful_extractions = 0 →
        m.total_cells = 0 →
      m.success_rate = 0 ∧ m.structure_accuracy = 0 ∧ m.cell_accuracy = 0 ∧
        m.exact_accuracy = 0 ∧ m.header_accuracy = 0 ∧ m.avg_time_ms = 0) := by
  constructor
  · intro m h1 h2 h3 h4 h5
    refine ⟨?_, ?_, ?_, ?_, ?_⟩
    · simp [ToolMetrics.table_accuracy, h1]
    · simp [ToolMetrics.table_page_accuracy, h1, h3, h4]
    · simp [ToolMetrics.spanning_recall, h5]
    · simp [ToolMetrics.image_accuracy, h1]
    · simp [ToolMetrics.avg_time_ms, h2]
  · intro m h1 h2 h3
    refine ⟨?_, ?_, ?_, ?_, ?_, ?_⟩
    · simp [CSVToolMetrics.success_rate, h1]
    · simp [CSVToolMetrics.structure_accuracy, h2]
    · simp [CSVToolMetrics.cell_accuracy, h3]
    · simp [CSVToolMetrics.exact_accuracy, h3]
    · simp [CSVToolMetrics.header_accuracy, h2]
    · simp [CSVToolMetrics.avg_time_ms, h2]

/-- Witness for C5's amended theorem at concrete all-zero metrics. -/
theorem zero_metrics_ratios_witness :
    (({ tool_name := "z" } : ToolMetrics).table_accuracy = 0 ∧
      ({ tool_name := "z" } : ToolMetrics).table_page_accuracy = 0 ∧
      ({ tool_name := "z" } : ToolMetrics).spanning_recall = 1 ∧
      ({ tool_name := "z" } : ToolMetrics).image_accuracy = 0 ∧
      ({ tool_name := "z" } : ToolMetrics).avg_time_ms = 0) ∧
    (({ tool_name := "z" } : CSVToolMetrics).success_rate = 0 ∧
      ({ tool_name := "z" } : CSVToolMetrics).structure_accuracy = 0 ∧
      ({ tool_name := "z" } : CSVToolMetrics).cell_accuracy = 0 ∧
      ({ tool_name := "z" } : CSVToolMetrics).exact_accuracy = 0 ∧
      ({ tool_name := "z" } : CSVToolMetrics).header_accuracy = 0 ∧
      ({ tool_name := "z" } : CSVToolMetrics).avg_time_ms = 0) :=
  ⟨zero_metrics_ratios.1 { tool_name := "z" } rfl rfl rfl rfl rfl,
   zero_metrics_ratios.2 { tool_name := "z" } rfl rfl rfl⟩

/-- Evaluation helper: a parse whose cleaned form scans to unsigned
integer/fraction digit lists has the corresponding decimal value. -/
theorem parseNumber_eval (s : String) (ip fp : List Char) (h0 : ¬ s = "")
    (h1 : pyFloatScan (parseNumberCleaned s) = some (false, ip, fp)) :
    parseNumber s = some ((digitsVal ip : ℚ) + (digitsVal fp : ℚ) / 10 ^ fp.length) := by
  rw [parseNumber, if_neg h0]
  show (pyFloatScan (parseNumberCleaned s)).map (fun t => decimalVal t.1 t.2.1 t.2.2) =
    some ((digitsVal ip : ℚ) + (digitsVal fp : ℚ) / 10 ^ fp.length)
  rw [h1]
  simp [decimalVal]

/-- C6: numeric parsing strips currency symbols and whitespace and treats
the right-most of `,`/`.` as the decimal separator, so `"1.234,56"`,
`"1,234.56"` and `"€ 1.234,56"` all parse to `1234.56`; with the default
tolerance `0.001`, `"1000"` vs `"1000.0005"` matches as `numeric` while
`"1000"` vs `"1002"` does not match. -/
theorem numeric_parsing_tolerance :
    parseNumber "1.234,56" = some (123456 / 100) ∧
    parseNumber "1,234.56" = some (123456 / 100) ∧
    parseNumber "€ 1.234,56" = some (123456 / 100) ∧
    compareCells defaultCmpCfg "1000" "1000.0005" = (true, "numeric") ∧
    compareCells defaultCmpCfg "1000" "1002" = (false, "mismatch") := by
  have q1 : parseNumber "1000" = some 1000 := by
    rw [parseNumber_eval "1000" ['1', '0', '0', '0'] [] (by decide) (by decide)]
    rw [show digitsVal ['1', '0', '0', '0'] = 1000 from by decide,
      show digitsVal [] = 0 from rfl]
    norm_num
  refine ⟨?_, ?_, ?_, ?_, ?_⟩
  · rw [parseNumber_eval "1.234,56" ['1', '2', '3', '4'] ['5', '6'] (by decide) (by decide)]
    rw [show digitsVal ['1', '2', '3', '4'] = 1234 from by decide,
      show digitsVal ['5', '6'] = 56 from by decide]
    norm_num
  · rw [parseNumber_eval "1,234.56" ['1', '2', '3', '4'] ['5', '6'] (by decide) (by decide)]
    rw [show digitsVal ['1', '2', '3', '4'] = 1234 from by decide,
      show digitsVal ['5', '6'] = 56 from by decide]
    norm_num
  · rw [parseNumber_eval "€ 1.234,56" ['1', '2', '3', '4'] ['5', '6'] (by decide) (by decide)]
    rw [show digitsVal ['1', '2', '3', '4'] = 1234 from by decide,
      show digitsVal ['5', '6'] = 56 from by decide]
    norm_num
  · have q2 : parseNumber "1000.0005" = some (2000001 / 2000) := by
      rw [parseNumber_eval "1000.0005" ['1', '0', '0', '0'] ['0', '0', '0', '5']
        (by decide) (by decide)]
      rw [show digitsVal ['1', '0', '0', '0'] = 1000 from by decide,
        show digitsVal ['0', '0', '0', '5'] = 5 from by decide]
      norm_num
    have hb1 : strIsEmpty "1000" = false := by decide
    have hb2 : strIsEmpty "1000.0005" = false := by decide
    have hne : ¬ (("1000" : String) = "1000.0005") := by decide
    have hnorm : ¬ (normalize defaultCmpCfg "1000" = normalize defaultCmpCfg "1000.0005") := by
      decide
    unfold compareCells
    rw [hb1, hb2]
    simp only [Bool.and_self, Bool.false_and, bne_self_eq_false, hne, hnorm, if_false, q1, q2,
      Bool.false_eq_true, beq_iff_eq, ite_false]
    norm_num [defaultCmpCfg, abs_le]
  · have q2 : parseNumber "1002" = some 1002 := by
      rw [parseNumber_eval "1002" ['1', '0', '0', '2'] [] (by decide) (by decide)]
      rw [show digitsVal ['1', '0', '0', '2'] = 1002 from by decide,
        show digitsVal [] = 0 from rfl]
      norm_num
    have hb1 : strIsEmpty "1000" = false := by decide
    have hb2 : strIsEmpty "1002" = false := by decide
    have hne : ¬ (("1000" : String) = "1002") := by decide
    have hnorm : ¬ (normalize defaultCmpCfg "1000" = normalize defaultCmpCfg "1002") := by decide
    unfold compareCells
    rw [hb1, hb2]
    simp only [Bool.and_self, Bool.false_and, bne_self_eq_false, hne, hnorm, if_false, q1, q2,
      Bool.false_eq_true, beq_iff_eq, ite_false]
    norm_num [defaultCmpCfg, abs_le]

/-- One cell comparison adds exactly one compared pair and exactly one of
matched/mismatched, and leaves the total untouched. -/
theorem compareCellAt_counts (cfg : CmpCfg) (gdf edf : DFrame) (row col : Nat) (r : TableCmpCSV) :
    (compareCellAt cfg gdf edf row col r).matched_cells +
        (compareCellAt cfg gdf edf row col r).mismatches =
      r.matched_cells + r.mismatches + 1 ∧
    (compareCellAt cfg gdf edf row col r).cell_comparisons.length =
      r.cell_comparisons.length + 1 ∧
    (compareCellAt cfg gdf edf row col r).matched_cells ≤ r.matched_cells + 1 ∧
    (compareCellAt cfg gdf edf row col r).total_cells = r.total_cells := by
  unfold compareCellAt
  dsimp only
  split_ifs <;> simp_arith

/-- Counting over one row's column fold. -/
theorem innerLoop_counts (cfg : CmpCfg) (gdf edf : DFrame) (row : Nat) (cols : List Nat) :
    ∀ r : TableCmpCSV,
      (cols.foldl (fun r col => compareCellAt cfg gdf edf row col r) r).matched_cells +
          (cols.foldl (fun r col => compareCellAt cfg gdf edf row col r) r).mismatches =
        r.matched_cells + r.mismatches + cols.length ∧
      (cols.foldl (fun r col => compareCellAt cfg gdf edf row col r) r).cell_comparisons.length =
        r.cell_comparisons.length + cols.length ∧
      (cols.foldl (fun r col => compareCellAt cfg gdf edf row col r) r).matched_cells ≤
        r.matched_cells + cols.length ∧
      (cols.foldl (fun r col => compareCellAt cfg gdf edf row col r) r).total_cells =
        r.total_cells := by
  induction cols with
  | nil => intro r; simp
  | cons c rest ih =>
    intro r
    simp only [List.foldl_cons, List.length_cons]
    have h1 := compareCellAt_counts cfg gdf edf row c r
    have h2 := ih (compareCellAt cfg gdf edf row c r)
    omega

/-- Counting over the row fold. -/
theorem rowsLoop_counts (cfg : CmpCfg) (gdf edf : DFrame) (colsCmp : Nat) (rows : List Nat) :
    ∀ r : TableCmpCSV,
      (rows.foldl (fun r row => (List.range colsCmp).foldl
          (fun r col => compareCellAt cfg gdf edf row col r) r) r).matched_cells +
          (rows.foldl (fun r row => (List.range colsCmp).foldl
          (fun r col => compareCellAt cfg gdf edf row col r) r) r).mismatches =
        r.matched_cells + r.mismatches + rows.length * colsCmp ∧
      (rows.foldl (fun r row => (List.range colsCmp).foldl
          (fun r col => compareCellAt cfg gdf edf row col r) r) r).cell_comparisons.length =
        r.cell_comparisons.length + rows.length * colsCmp ∧
      (rows.foldl (fun r row => (List.range colsCmp).foldl
          (fun r col => compareCellAt cfg gdf edf row col r) r) r).matched_cells ≤
        r.matched_cells + rows.length * colsCmp ∧
      (rows.foldl (fun r row => (List.range colsCmp).foldl
          (fun r col => compareCellAt cfg gdf edf row col r) r) r).total_cells =
        r.total_cells := by
  induction rows with
  | nil => intro r; simp
  | cons a rest ih =>
    intro r
    simp only [List.foldl_cons, List.length_cons]
    have h1 := innerLoop_counts cfg gdf edf a (List.range colsCmp) r
    rw [List.length_range] at h1
    have h2 := ih ((List.range colsCmp).foldl (fun r col => compareCellAt cfg gdf edf a col r) r)
    have h3 : (rest.length + 1) * colsCmp = colsCmp + rest.length * colsCmp := by ring
    omega

/-- Counting over the whole nested cell loop. -/
theorem compareCellsLoop_counts (cfg : CmpCfg) (gdf edf : DFrame) (rowsCmp colsCmp : Nat)
    (r : TableCmpCSV) :
    (compareCellsLoop cfg gdf edf rowsCmp colsCmp r).matched_cells +
        (compareCellsLoop cfg gdf edf rowsCmp colsCmp r).mismatches =
      r.matched_cells + r.mismatches + rowsCmp * colsCmp ∧
    (compareCellsLoop cfg gdf edf rowsCmp colsCmp r).cell_comparisons.length =
      r.cell_comparisons.length + rowsCmp * colsCmp ∧
    (compareCellsLoop cfg gdf edf rowsCmp colsCmp r).matched_cells ≤
      r.matched_cells + rowsCmp * colsCmp ∧
    (compareCellsLoop cfg gdf edf rowsCmp colsCmp r).total_cells = r.total_cells := by
  have := rowsLoop_counts cfg gdf edf colsCmp (List.range rowsCmp) r
  rw [List.length_range] at this
  exact this

/-- The opening stage leaves all cell counters at zero. -/
theorem compareTablesInit_zero (cfg : CmpCfg) (gt : CSVGroundTruth) (gdf edf : DFrame)
    (tool_name file_name : String) :
    (compareTablesInit cfg gt gdf edf tool_name file_name).matched_cells = 0 ∧
    (compareTablesInit cfg gt gdf edf tool_name file_name).mismatches = 0 ∧
    (compareTablesInit cfg gt gdf edf tool_name file_name).cell_comparisons.length = 0 := by
  unfold compareTablesInit
  dsimp only
  split_ifs <;> simp

/-- Counting through the cell-comparison stage. -/
theorem compareTablesTail_counts (cfg : CmpCfg) (gdf edf : DFrame) (r1 : TableCmpCSV)
    (hm : r1.matched_cells = 0) (hmm : r1.mismatches = 0)
    (hl : r1.cell_comparisons.length = 0) :
    (compareTablesTail cfg gdf edf r1).cell_comparisons.length =
      min gdf.nrows edf.nrows * min gdf.ncols edf.ncols ∧
    (compareTablesTail cfg gdf edf r1).total_cells = gdf.nrows * gdf.ncols ∧
    (compareTablesTail cfg gdf edf r1).matched_cells +
        (compareTablesTail cfg gdf edf r1).mismatches = gdf.nrows * gdf.ncols ∧
    (compareTablesTail cfg gdf edf r1).matched_cells ≤
      min gdf.nrows edf.nrows * min gdf.ncols edf.ncols := by
  unfold compareTablesTail
  dsimp only
  have hloop := compareCellsLoop_counts cfg gdf edf (min gdf.nrows edf.nrows)
    (min gdf.ncols edf.ncols) { r1 with total_cells := gdf.nrows * gdf.ncols }
  have hle : min gdf.nrows edf.nrows * min gdf.ncols edf.ncols ≤ gdf.nrows * gdf.ncols :=
    Nat.mul_le_mul (Nat.min_le_left _ _) (Nat.min_le_left _ _)
  split_ifs with h
  · simp only at hloop ⊢
    refine ⟨?_, ?_, ?_, ?_⟩ <;> (simp_all; try omega)
  · push_neg at h
    have e1 : min gdf.nrows edf.nrows = gdf.nrows :=
      le_antisymm (Nat.min_le_left _ _) h.1
    have e2 : min gdf.ncols edf.ncols = gdf.ncols :=
      le_antisymm (Nat.min_le_left _ _) h.2
    rw [e1, e2] at hloop ⊢
    simp only at hloop ⊢
    refine ⟨?_, ?_, ?_, ?_⟩ <;> simp_all

/-- C4: a table comparison compares exactly
`min(expectedRows, actualRows) × min(expectedCols, actualCols)` cell pairs
positionally, its total cell count is `expectedRows × expectedCols`, every
ground-truth cell outside the compared intersection counts as a mismatch
(`matched + mismatches = total` with `matched` bounded by the
intersection), so the mismatch count is at least the number of uncompared
ground-truth cells regardless of content. -/
theorem compare_tables_dims (cfg : CmpCfg) (gt : CSVGroundTruth) (extracted : ExtractedTable)
    (tool_name file_name : String) :
    (compareTables cfg gt extracted tool_name file_name).cell_comparisons.length =
      min gt.dframe.nrows (extracted.to_dataframe true).nrows *
        min gt.dframe.ncols (extracted.to_dataframe true).ncols ∧
    (compareTables cfg gt extracted tool_name file_name).total_cells =
      gt.dframe.nrows * gt.dframe.ncols ∧
    (compareTables cfg gt extracted tool_name file_name).matched_cells +
        (compareTables cfg gt extracted tool_name file_name).mismatches =
      gt.dframe.nrows * gt.dframe.ncols ∧
    (compareTables cfg gt extracted tool_name file_name).matched_cells ≤
      min gt.dframe.nrows (extracted.to_dataframe true).nrows *
        min gt.dframe.ncols (extracted.to_dataframe true).ncols ∧
    gt.dframe.nrows * gt.dframe.ncols -
        min gt.dframe.nrows (extracted.to_dataframe true).nrows *
          min gt.dframe.ncols (extracted.to_dataframe true).ncols ≤
      (compareTables cfg gt extracted tool_name file_name).mismatches := by
  have heq : compareTables cfg gt extracted tool_name file_name =
      compareTablesTail cfg gt.dframe (extracted.to_dataframe true)
        (compareTablesInit cfg gt gt.dframe (extracted.to_dataframe true)
          tool_name file_name) := rfl
  have hinit := compareTablesInit_zero cfg gt gt.dframe (extracted.to_dataframe true)
    tool_name file_name
  have htail := compareTablesTail_counts cfg gt.dframe (extracted.to_dataframe true) _
    hinit.1 hinit.2.1 hinit.2.2
  rw [heq]
  exact ⟨htail.1, htail.2.1, htail.2.2.1, htail.2.2.2, by omega⟩

/-- The inner scan, from an arbitrary non-exact tentative state: the first
available equal range wins as `exact`; otherwise the last available
overlapping table becomes the `partial` match; otherwise the tentative
state survives. -/
theorem scanLoop_general (used : List Nat) (gtRange : Nat × Nat) :
    ∀ (l : List ExtractedTable) (bm : Option ExtractedTable) (bs : String), bs ≠ "exact" →
      scanLoop used gtRange l (bm, bs) =
        (match (l.filter (fun e => e.table_id ∉ used)).find?
            (fun e => e.page_range == gtRange) with
         | some e => (some e, "exact")
         | none =>
           match ((l.filter (fun e => e.table_id ∉ used)).filter
               (fun e => rangesOverlap gtRange e.page_range)).getLast? with
           | some e => (some e, "partial")
           | none => (bm, bs)) := by
  intro l
  induction l with
  | nil => intro bm bs h; simp [scanLoop]
  | cons e rest ih =>
    intro bm bs h
    rw [scanLoop]
    by_cases hu : e.table_id ∈ used
    · rw [if_pos hu, ih bm bs h,
        List.filter_cons_of_neg (by simp [hu])]
    · by_cases he : e.page_range = gtRange
      · rw [if_neg hu, if_pos he,
          List.filter_cons_of_pos (by simp [hu]),
          List.find?_cons_of_pos _ (by simp [he])]
      · by_cases ho : rangesOverlap gtRange e.page_range = true
        · rw [if_neg hu, if_neg he, if_pos ho, if_pos (by simpa using h),
            ih (some e) "partial" (by decide),
            List.filter_cons_of_pos (by simp [hu]),
            List.find?_cons_of_neg _ (by simp [he])]
          rw [@List.filter_cons_of_pos _
              (fun x : ExtractedTable => rangesOverlap gtRange x.page_range) e _ ho,
            List.getLast?_cons]
          cases hf : (rest.filter (fun e => e.table_id ∉ used)).find?
              (fun e => e.page_range == gtRange) with
          | some y => rfl
          | none =>
            simp only
            cases hl : ((rest.filter (fun e => e.table_id ∉ used)).filter
                (fun e => rangesOverlap gtRange e.page_range)).getLast? with
            | some z => rfl
            | none => rfl
        · rw [if_neg hu, if_neg he, if_neg ho, ih bm bs h,
            List.filter_cons_of_pos (by simp [hu]),
            List.find?_cons_of_neg _ (by simp [he])]
          rw [@List.filter_cons_of_neg _
              (fun x : ExtractedTable => rangesOverlap gtRange x.page_range) e _
              (by simpa using ho)]

/-- From the `missing` start state, the scan computes exactly the amended
single-entry matcher. -/
theorem scanLoop_eq_amended (used : List Nat) (gtRange : Nat × Nat)
    (main : List ExtractedTable) :
    scanLoop used gtRange main (none, "missing") = reconcileMatchAmended used gtRange main := by
  rw [scanLoop_general used gtRange main none "missing" (by decide)]
  rfl

/-- The code's outer loop equals the spec-shaped loop over the amended
matcher. -/
theorem compareLoop_eq_amended (main : List ExtractedTable) :
    ∀ (gts : List TableDefinition) (used : List Nat) (acc : List TableCmp),
      compareLoop main gts used acc = reconcileLoop reconcileMatchAmended main gts used acc := by
  intro gts
  induction gts with
  | nil => intro used acc; rfl
  | cons gt rest ih =>
    intro used acc
    rw [compareLoop, reconcileLoop]
    simp only [scanLoop_eq_amended]
    exact ih _ _

/-- C1 (amended): the reconciler processes ground-truth entries in input
order; each is matched to the first not-yet-consumed extracted table with
an exactly equal page range (`exact`, scanning stops), otherwise to the
*last* not-yet-consumed overlapping table (`partial` — each later overlap
replaces the tentative match), otherwise `missing` consuming nothing; each
extracted table is consumed at most once and every unconsumed extracted
table is emitted once as `extra`. -/
theorem compare_table_pages_amended (gts : List TableDefinition)
    (exts : List ExtractedTable) :
    compareTablePages gts exts = reconcileWith reconcileMatchAmended gts exts := by
  unfold compareTablePages reconcileWith
  dsimp only
  rw [compareLoop_eq_amended]

/-- C1 counterexample: with ground truth `[1,2]` and extracted ranges
`[2,3]` then `[1,1]` (both overlapping, neither exact), the code consumes
the *last* overlapping table `[1,1]`, while the claim's first-overlap rule
would consume `[2,3]` — the two reconcilers disagree. -/
theorem compare_table_pages_first_ce :
    compareTablePages [{ table_id := 1, start_page := 1, end_page := 2 }]
        [{ table_id := 1, page := 2, continues_to_page := some 3 },
         { table_id := 2, page := 1 }] ≠
      reconcileWith reconcileMatchFirst [{ table_id := 1, start_page := 1, end_page := 2 }]
        [{ table_id := 1, page := 2, continues_to_page := some 3 },
         { table_id := 2, page := 1 }] := by decide

/-- Each fragment appends exactly one table to the accumulated list, whose
continuation flag is the fragment's continuation decision; no existing
flag changes. -/
theorem flags_processFragment (detect : Bool) (pn : Nat) (ph : ℚ) (first : Bool)
    (f : Fragment) (st : ExtState) :
    tablesFlags (processFragment detect pn ph first f st) =
      tablesFlags st ++ [contDecision detect first st.lastInfo f ph] := by
  unfold processFragment
  dsimp only
  by_cases hc : contDecision detect first st.lastInfo f ph = true
  · rw [hc]
    cases hcur : st.cur with
    | some g =>
      simp only [tablesFlags, allTables, hcur, if_true, hc]
      split_ifs <;> simp
    | none =>
      simp only [tablesFlags, allTables, hcur, if_true, hc]
      simp
  · rw [Bool.not_eq_true] at hc
    rw [hc]
    simp only [tablesFlags, allTables, flushCur, Bool.false_eq_true, if_false]
    cases hcur : st.cur with
    | some g => simp [allTables, hcur]
    | none => simp [allTables, hcur]

/-- A fragment that is not first on its page is never a continuation. -/
theorem contDecision_not_first (detect : Bool) (li : Option LastInfo) (f : Fragment) (ph : ℚ) :
    contDecision detect false li f ph = false := rfl

/-- Fragments after the first on a page all append the flag `false`. -/
theorem flags_processFrags_rest (detect : Bool) (pn : Nat) (ph : ℚ) :
    ∀ (l : List Fragment) (idx : Nat) (st : ExtState), idx ≠ 0 →
      tablesFlags (processFrags detect pn ph l idx st) =
        tablesFlags st ++ l.map (fun _ => false) := by
  intro l
  induction l with
  | nil => intro idx st h; simp [processFrags]
  | cons f rest ih =>
    intro idx st h
    rw [processFrags]
    rw [ih (idx + 1) _ (Nat.succ_ne_zero idx)]
    rw [flags_processFragment]
    rw [show (idx == 0) = false from beq_eq_false_iff_ne.mpr h]
    rw [contDecision_not_first]
    simp

/-- With detection enabled, the first fragment's decision is exactly the
spec's three-condition predicate. -/
theorem contDecision_first_true (li : Option LastInfo) (f : Fragment) (ph : ℚ) :
    contDecision true true li f ph = contSpecBool li f ph := by
  cases li with
  | none => rfl
  | some i =>
    show isContinuation f.colCount f.bbox i ph = _
    unfold isContinuation contSpecBool CONTINUATION_BOTTOM CONTINUATION_TOP
    norm_num

/-- C2: processing a page appends, for its fragments in order, exactly the
spec-prescribed continuation flags: the first fragment is a continuation
iff a retained previous fragment exists with equal column count whose
bottom edge exceeded 80% of its page height while the current fragment's
top edge is above 20% of the current page height; every later fragment on
the page is a new logical table. -/
theorem continuation_flags (st : ExtState) (n : Nat) (p : Page) :
    tablesFlags (processPage true n p st) = tablesFlags st ++ pageFlagsSpec st.lastInfo p := by
  unfold processPage pageFlagsSpec
  cases hf : p.fragments with
  | nil =>
    simp only [hf, processFrags, List.isEmpty_nil, if_true]
    simp [tablesFlags, allTables, flushCur]
  | cons f rest =>
    simp only [hf, List.isEmpty_cons, Bool.false_eq_true, if_false, processFrags]
    rw [flags_processFrags_rest true n p.height rest 1 _ (by decide)]
    rw [flags_processFragment]
    rw [show ((0:Nat) == 0) = true from rfl]
    rw [contDecision_first_true]
    simp


/-- Closing the open group preserves the accumulated table list. -/
theorem allTables_flushCur (st : ExtState) : allTables (flushCur st) = allTables st := by
  simp [flushCur, allTables]

/-- A positive continuation decision presupposes retained previous-fragment
state. -/
theorem contDecision_isSome (detect first : Bool) (li : Option LastInfo) (f : Fragment)
    (ph : ℚ) (h : contDecision detect first li f ph = true) : li.isSome := by
  cases li with
  | none => simp [contDecision] at h
  | some i => rfl

/-- One fragment step preserves the gap invariant and appends exactly one
table id, greater than the pre-gap counter. -/
theorem gapInv_processFragment (n : Nat) (detect : Bool) (pn : Nat) (ph : ℚ) (first : Bool)
    (f : Fragment) (st : ExtState) (hI : gapInv n st) :
    gapInv n (processFragment detect pn ph first f st) ∧
    ∃ i, tablesIds (processFragment detect pn ph first f st) = tablesIds st ++ [i] ∧ n < i := by
  obtain ⟨h1, h2, h3⟩ := hI
  unfold processFragment
  dsimp only
  by_cases hc : contDecision detect first st.lastInfo f ph = true
  · rw [hc]
    have hsome := contDecision_isSome detect first st.lastInfo f ph hc
    have hcur : st.cur.isSome := h2 hsome
    obtain ⟨g, hg⟩ := Option.isSome_iff_exists.mp hcur
    rw [hg]
    have hgid : n < g.main.table_id := h3 g hg
    constructor
    · refine ⟨h1, fun _ => rfl, ?_⟩
      intro g' hg'
      simp only [if_true] at hg'
      split_ifs at hg' with hd
      · simp only [Option.some.injEq] at hg'
        rw [← hg']
        simpa using hgid
      · simp only [Option.some.injEq] at hg'
        rw [← hg']
        simpa using hgid
    · refine ⟨g.main.table_id, ?_, hgid⟩
      simp only [tablesIds, allTables]
      split_ifs <;> simp [hg]
  · rw [Bool.not_eq_true] at hc
    rw [hc]
    simp only [Bool.false_eq_true, if_false]
    constructor
    · refine ⟨by simp [flushCur]; omega, fun _ => rfl, ?_⟩
      intro g' hg'
      simp only [Option.some.injEq] at hg'
      rw [← hg']
      simp [flushCur]
      omega
    · refine ⟨(flushCur st).nextId + 1, ?_, ?_⟩
      · simp only [tablesIds, allTables, flushCur]
        simp
      · simp [flushCur]
        omega

/-- The fragment loop preserves the gap invariant; all appended ids exceed
the pre-gap counter. -/
theorem gapInv_processFrags (n : Nat) (detect : Bool) (pn : Nat) (ph : ℚ) :
    ∀ (l : List Fragment) (idx : Nat) (st : ExtState), gapInv n st →
      gapInv n (processFrags detect pn ph l idx st) ∧
      ∃ em, tablesIds (processFrags detect pn ph l idx st) = tablesIds st ++ em ∧
        ∀ i ∈ em, n < i := by
  intro l
  induction l with
  | nil =>
    intro idx st hI
    exact ⟨hI, [], by simp [processFrags], by simp⟩
  | cons f rest ih =>
    intro idx st hI
    rw [processFrags]
    obtain ⟨hI', i, hieq, hilt⟩ := gapInv_processFragment n detect pn ph (idx == 0) f st hI
    obtain ⟨hI'', em, hemeq, hemlt⟩ := ih (idx + 1) _ hI'
    refine ⟨hI'', i :: em, ?_, ?_⟩
    · rw [hemeq, hieq]
      simp
    · intro j hj
      rcases List.mem_cons.mp hj with h | h
      · rw [h]; exact hilt
      · exact hemlt j h

/-- One page preserves the gap invariant; all appended ids exceed the
pre-gap counter. -/
theorem gapInv_processPage (n : Nat) (detect : Bool) (pnum : Nat) (p : Page) (st : ExtState)
    (hI : gapInv n st) :
    gapInv n (processPage detect pnum p st) ∧
    ∃ em, tablesIds (processPage detect pnum p st) = tablesIds st ++ em ∧ ∀ i ∈ em, n < i := by
  unfold processPage
  obtain ⟨hI', em, hemeq, hemlt⟩ :=
    gapInv_processFrags n detect pnum p.height p.fragments 0 st hI
  split_ifs with h
  · rw [List.isEmpty_iff] at h
    rw [h] at hemeq ⊢
    simp only [processFrags] at hemeq ⊢
    constructor
    · exact ⟨by simp [flushCur]; exact hI.1, by simp, by simp [flushCur]⟩
    · refine ⟨[], ?_, by simp⟩
      simp only [tablesIds] at hemeq ⊢
      rw [show allTables { flushCur st with lastInfo := none, spanningData := [] } =
        allTables (flushCur st) from by simp [allTables, flushCur]]
      rw [allTables_flushCur]
      simp
  · exact ⟨hI', em, hemeq, hemlt⟩

/-- The page loop preserves the gap invariant; all appended ids exceed the
pre-gap counter. -/
theorem gapInv_processPages (n : Nat) (detect : Bool) :
    ∀ (pages : List Page) (m : Nat) (st : ExtState), gapInv n st →
      gapInv n (processPages detect pages m st) ∧
      ∃ em, tablesIds (processPages detect pages m st) = tablesIds st ++ em ∧
        ∀ i ∈ em, n < i := by
  intro pages
  induction pages with
  | nil =>
    intro m st hI
    exact ⟨hI, [], by simp [processPages], by simp⟩
  | cons p rest ih =>
    intro m st hI
    rw [processPages]
    obtain ⟨hI', em, hemeq, hemlt⟩ := gapInv_processPage n detect m p st hI
    obtain ⟨hI'', em', hemeq', hemlt'⟩ := ih (m + 1) _ hI'
    refine ⟨hI'', em ++ em', ?_, ?_⟩
    · rw [hemeq', hemeq]; simp
    · intro j hj
      rcases List.mem_append.mp hj with h | h
      · exact hemlt j h
      · exact hemlt' j h

/-- C7: a page with zero detected fragments clears the continuation
tracking state (`last_table_info`, the open spanning table, the collected
data), emits nothing, allocates no id — and every table emitted on any
later pages carries a table id strictly greater than every id allocated
before the gap, so no later table is ever folded into a logical table that
ended before the gap page, even with matching column counts. -/
theorem gap_page_reset (st : ExtState) (n m : Nat) (gap : Page) (rest : List Page)
    (h : gap.fragments = []) :
    (processPage true n gap st).lastInfo = none ∧
    (processPage true n gap st).cur = none ∧
    (processPage true n gap st).nextId = st.nextId ∧
    allTables (processPage true n gap st) = allTables st ∧
    ((tablesIds (processPages true rest m (processPage true n gap st))).drop
        (tablesIds (processPage true n gap st)).length).all
      (fun i => decide (st.nextId < i)) = true := by
  have hpage : processPage true n gap st =
      { flushCur st with lastInfo := none, spanningData := [] } := by
    unfold processPage
    rw [h]
    simp [processFrags]
  have hall : allTables (processPage true n gap st) = allTables st := by
    rw [hpage, show allTables { flushCur st with lastInfo := none, spanningData := [] } =
      allTables (flushCur st) from by simp [allTables, flushCur], allTables_flushCur]
  have hnext : (processPage true n gap st).nextId = st.nextId := by
    rw [hpage]; simp [flushCur]
  have hInv : gapInv st.nextId (processPage true n gap st) := by
    rw [hpage]
    exact ⟨by simp [flushCur], by simp, by simp [flushCur]⟩
  obtain ⟨_, em, hemeq, hemlt⟩ :=
    gapInv_processPages st.nextId true rest m (processPage true n gap st) hInv
  refine ⟨by rw [hpage], by rw [hpage]; simp [flushCur], hnext, hall, ?_⟩
  rw [hemeq, List.drop_left, List.all_eq_true]
  intro i hi
  rw [decide_eq_true_eq]
  exact hemlt i hi

/-- Witness for C7 at a concrete gap page followed by a one-fragment
page. -/
theorem gap_page_reset_witness :
    (processPage true 1 ({ height := 100, fragments := [] } : Page) initExtState).lastInfo = none ∧
    (processPage true 1 ({ height := 100, fragments := [] } : Page) initExtState).cur = none ∧
    (processPage true 1 ({ height := 100, fragments := [] } : Page) initExtState).nextId =
      initExtState.nextId ∧
    allTables (processPage true 1 ({ height := 100, fragments := [] } : Page) initExtState) =
      allTables initExtState ∧
    ((tablesIds (processPages true
          [{ height := 100, fragments := [{ colCount := 2, bbox := ⟨0, 0, 0, 0⟩, cells := [] }] }] 2
          (processPage true 1 ({ height := 100, fragments := [] } : Page) initExtState))).drop
        (tablesIds (processPage true 1 ({ height := 100, fragments := [] } : Page)
          initExtState)).length).all
      (fun i => decide (initExtState.nextId < i)) = true :=
  gap_page_reset initExtState 1 2 { height := 100, fragments := [] }
    [{ height := 100, fragments := [{ colCount := 2, bbox := ⟨0, 0, 0, 0⟩, cells := [] }] }] rfl

/-- C3 evaluation at the failing input: a table running to the bottom of
page 1 whose continuation on page 2 repeats the header row
`["H1", "H2"]`.  Continuation folding allocates no new id and advances the
owning table's end page to 2 as claimed, but the folded `cell_data`
contains the continuation fragment's header row again — the code appends
all continuation rows (its own comment says "ohne Header"), so the
claimed header exclusion does not happen. -/
theorem spanning_keeps_header_eval :
    ((extractTablesDetailed true [pageSpanA, pageSpanB]).tables.filter
        (fun t => !t.is_continuation)).map (fun t => t.data) =
      [[["H1", "H2"], ["a", "b"], ["H1", "H2"], ["c", "d"]]] ∧
    ((extractTablesDetailed true [pageSpanA, pageSpanB]).tables.filter
        (fun t => !t.is_continuation)).map (fun t => t.continues_to_page) = [some 2] ∧
    (extractTablesDetailed true [pageSpanA, pageSpanB]).count = 1 ∧
    (extractTablesDetailed true [pageSpanA, pageSpanB]).continuations = 1 := by
  have hdr : detectHeaderRow [["H1", "H2"], ["a", "b"]] = some 0 := by decide
  have hic : isContinuation 2 { x0 := 0, y0 := 5, x1 := 50, y1 := 50 }
      { cols := 2, y1 := 90, pageHeight := 100, page := 1 } 100 = true := by
    unfold isContinuation CONTINUATION_BOTTOM CONTINUATION_TOP
    norm_num
  refine ⟨?_, ?_, ?_, ?_⟩ <;>
    simp [extractTablesDetailed, processPages, processPage, processFrags, processFragment,
      pageSpanA, pageSpanB, initExtState, flushCur, allTables, cleanData, hdr, hic,
      contDecision, ExtractedTable.is_spanning]


/-- Mapping a projection over an in-place metrics update. -/
theorem map_updateBenchMetrics {β : Type} (name : String) (f : ToolMetrics → ToolMetrics)
    (g : ToolMetrics → β) (ms : List (String × ToolMetrics)) :
    (updateBenchMetrics name f ms).map (fun p => (p.1, g p.2)) =
      ms.map (fun p => (p.1, if p.1 = name then g (f p.2) else g p.2)) := by
  unfold updateBenchMetrics
  induction ms with
  | nil => rfl
  | cons p rest ih =>
    simp only [List.map_cons, ih]
    split_ifs with h <;> simp

/-- Two successive updates of the same tool compose. -/
theorem updateBenchMetrics_comp (name : String) (f1 f2 : ToolMetrics → ToolMetrics)
    (ms : List (String × ToolMetrics)) :
    updateBenchMetrics name f2 (updateBenchMetrics name f1 ms) =
      updateBenchMetrics name (fun m => f2 (f1 m)) ms := by
  unfold updateBenchMetrics
  rw [List.map_map]
  apply List.map_congr_left
  intro p hp
  by_cases h : p.1 = name <;> simp [h]

/-- C9 counterexample: running `BenchmarkRunner` on one file whose name
has no manifest entry still increments the adapter's `total_files` and
`successful` counters — the file is not skipped silently there. -/
theorem bench_no_gt_counts_ce :
    (benchRun (some { documents := [] }) [extractorEx] [("a.pdf", 0)]).tool_metrics.map
        (fun p => (p.1, p.2.total_files, p.2.successful)) = [("E", 1, 1)] ∧
    (1 : Nat) ≠ 0 := by
  constructor
  · decide
  · decide

/-- C9 (amended): in the CSV benchmark runner a file without ground truth
is skipped silently — the run state is completely unchanged; in the
page-count benchmark runner such a file still increments `total_files`
(and, on success, the success/time counters and report rows), but no
accuracy counter changes and no comparison result is produced (the
appended table report carries an empty comparison list). -/
theorem no_ground_truth_behavior :
    (∀ (rn : CSVRunner) (st : CSVBenchmarkResult) (f : String × Nat),
      (match rn.manifest with
       | some m => m.get_all_for_file f.1
       | none => []) = [] →
      csvProcessFile rn st f = st) ∧
    (∀ (fn : String) (b : Nat) (st : BenchResult) (ext : Extractor),
      (benchProcessFileExt none fn b st ext).tool_metrics.map
          (fun p => (p.1, accCounters p.2)) =
        st.tool_metrics.map (fun p => (p.1, accCounters p.2)) ∧
      (benchProcessFileExt none fn b st ext).tool_metrics.map
          (fun p => (p.1, p.2.total_files)) =
        st.tool_metrics.map
          (fun p => (p.1, p.2.total_files + if p.1 = ext.name then 1 else 0)) ∧
      ((benchProcessFileExt none fn b st ext).table_reports.drop
          st.table_reports.length).all (fun r => r.comparisons.isEmpty) = true) := by
  constructor
  · intro rn st f h
    unfold csvProcessFile
    dsimp only
    rw [h]
    rfl
  · intro fn b st ext
    unfold benchProcessFileExt
    dsimp only
    split_ifs with hs
    · refine ⟨?_, ?_, ?_⟩
      · rw [map_updateBenchMetrics]
        apply List.map_congr_left
        intro p hp
        split_ifs <;> rfl
      · rw [map_updateBenchMetrics]
        apply List.map_congr_left
        intro p hp
        split_ifs <;> simp
      · simp
    · refine ⟨?_, ?_, ?_⟩
      · rw [updateBenchMetrics_comp, map_updateBenchMetrics]
        apply List.map_congr_left
        intro p hp
        split_ifs <;> rfl
      · rw [updateBenchMetrics_comp, map_updateBenchMetrics]
        apply List.map_congr_left
        intro p hp
        split_ifs <;> simp
      · simp

/-- Witness for C9's amended theorem: a concrete CSV run state is left
untouched by a file with no ground-truth entry. -/
theorem no_ground_truth_behavior_witness :
    csvProcessFile { manifest := none, extractors := [extractorEx], cfg := defaultCmpCfg }
      {} ("a.pdf", 0) = {} :=
  no_ground_truth_behavior.1 _ _ _ rfl

end PDFPipeline
